import Mathlib

/-!
Shallow embedding of `generate_leads.py`, a single-file synthetic
lead-record generator, together with theorems settling the claims of its
specification.

Modelling conventions:
* Randomness is made explicit: every call to `random.randint(a, b)` is
  modelled by `pyRandint a b r` for an arbitrary `r : Nat`, and every call
  to `random.choice l` by `pychoice l r`; as `r` ranges over `Nat` these
  produce exactly the outcomes the Python calls can produce.
* Outcomes of `random.random() > p` comparisons are modelled by arbitrary
  `Bool` inputs, and values drawn from the `faker` library by arbitrary
  `String` inputs.
* Timestamps are modelled as integer day counts: `now : Int` is the day of
  generation and `datetime.now() - timedelta(days=d)` is `now - d`.  A year
  is 365 days, matching the constants 7300 = 20*365 and 25550 = 70*365 used
  by the source for date-of-birth offsets.
-/

/-- Model of Python `random.randint(a, b)`: an arbitrary value of the
inclusive range `[a, b]`, selected by the raw random input `r`. -/
def pyRandint (a b : Int) (r : Nat) : Int :=
  a + (r % (b - a + 1).toNat : Nat)

/-- Model of Python `random.choice l` on a list of strings: an arbitrary
element of `l`, selected by the raw random input `r`. -/
def pychoice (l : List String) (r : Nat) : String :=
  l.getD (r % l.length) ""

/-- Raw random inputs consumed by `generate_phone`. -/
structure PhoneRand where
  cc : Nat
  msisdn : String

/-- Embedding of `generate_phone`: a `+`, a country code from
`randint(1, 99)`, then `fake.msisdn()[2:]`. -/
def generate_phone (r : PhoneRand) : String :=
  "+" ++ toString (pyRandint 1 99 r.cc) ++ (r.msisdn.drop 2)

structure SocialMedia where
  facebook : String
  twitter : String
  linkedin : String
  instagram : String
  telegram : String
  whatsapp : String
deriving DecidableEq

/-- Raw random inputs consumed by `generate_social_media`: for each of the
six channels, the outcome of its `random.random() > 0.3` test and the
faker username (or phone randomness) used when the test passes. -/
structure SMRand where
  fbP : Bool
  twP : Bool
  liP : Bool
  igP : Bool
  tgP : Bool
  waP : Bool
  fbU : String
  twU : String
  liU : String
  igU : String
  tgU : String
  waR : PhoneRand

/-- Embedding of `generate_social_media`. -/
def generate_social_media (r : SMRand) : SocialMedia where
  facebook := if r.fbP then "https://facebook.com/" ++ r.fbU else ""
  twitter := if r.twP then "https://twitter.com/" ++ r.twU else ""
  linkedin := if r.liP then "https://linkedin.com/in/" ++ r.liU else ""
  instagram := if r.igP then "https://instagram.com/" ++ r.igU else ""
  telegram := if r.tgP then "@" ++ r.tgU else ""
  whatsapp := if r.waP then generate_phone r.waR else ""

structure Address where
  street : String
  city : String
  postalCode : String
deriving DecidableEq

/-- Faker values consumed by `generate_address`. -/
structure AddrRand where
  street : String
  city : String
  postcode : String

/-- Embedding of `generate_address`. -/
def generate_address (r : AddrRand) : Address where
  street := r.street
  city := r.city
  postalCode := r.postcode

structure Documents where
  idFrontUrl : String
  idBackUrl : String
  selfieUrl : String
  residenceProofUrl : String
  status : String
deriving DecidableEq

/-- The fixed placeholder image URL used for every document of an FTD
lead. -/
def image_url : String :=
  "https://d.newsweek.com/en/full/1888025/gary-lee-holding-id-face.jpg"

/-- The valid document statuses (`status_choices` in the source). -/
def status_choices : List String := ["good", "ok", "pending"]

/-- Embedding of `generate_documents`: `some` document record when the
lead type is `"ftd"`, `None` (here `none`) otherwise. -/
def generate_documents (lead_type : String) (r : Nat) : Option Documents :=
  if lead_type = "ftd" then
    some { idFrontUrl := image_url
           idBackUrl := image_url
           selfieUrl := image_url
           residenceProofUrl := image_url
           status := pychoice status_choices r }
  else none

/-- The ten comment sentence templates of `generate_comments`, with their
named placeholders in braces. -/
def comment_templates : List String :=
  [ "Initial contact made, \x7binterest\x7d in trading"
  , "Client shows \x7blevel\x7d knowledge about \x7bmarket\x7d"
  , "Followed up via \x7bchannel\x7d, \x7bresponse\x7d"
  , "Discussed \x7bproduct\x7d options, \x7boutcome\x7d"
  , "Scheduled \x7bmeeting_type\x7d for \x7btimeframe\x7d"
  , "\x7blanguage\x7d barrier noted, \x7bsolution\x7d required"
  , "Client prefers \x7bcommunication\x7d for future contact"
  , "Potential for \x7binvestment_type\x7d investment identified"
  , "Requires more information about \x7btopic\x7d"
  , "Previous experience with \x7bbroker\x7d, \x7bexperience\x7d" ]

def interest_levels : List String :=
  ["very interested", "somewhat interested", "showing interest", "highly interested"]
def knowledge_levels : List String :=
  ["basic", "intermediate", "advanced", "limited"]
def markets : List String :=
  ["forex", "stocks", "crypto", "commodities", "indices"]
def channels : List String :=
  ["email", "phone", "WhatsApp", "Telegram", "LinkedIn"]
def responses : List String :=
  ["positive response", "will consider options", "requested more info", "needs time to decide"]
def products : List String :=
  ["CFD", "forex pairs", "commodity futures", "stock options"]
def outcomes : List String :=
  ["showing promise", "needs follow-up", "very enthusiastic", "considering proposal"]
def meeting_types : List String :=
  ["video call", "phone consultation", "online demo", "strategy session"]
def timeframes : List String :=
  ["next week", "tomorrow", "next month", "this Friday"]
def languages : List String :=
  ["English", "Spanish", "Mandarin", "Arabic"]
def solutions : List String :=
  ["translator", "simplified materials", "native speaker", "visual aids"]
def communication_modes : List String :=
  ["email", "phone", "messaging apps", "video calls"]
def investment_types : List String :=
  ["short-term", "long-term", "day trading", "swing trading"]
def topics : List String :=
  ["trading platforms", "account types", "fee structure", "trading strategies"]
def brokers : List String :=
  ["previous broker", "local broker", "online platform", "traditional bank"]
def experiences : List String :=
  ["positive experience", "mixed results", "negative experience", "limited exposure"]

/-- Raw random inputs consumed for one comment: the template choice, the
sixteen vocabulary choices passed to `str.format`, and the day offset of
the comment timestamp. -/
structure CommentRand where
  t : Nat
  iInterest : Nat
  iLevel : Nat
  iMarket : Nat
  iChannel : Nat
  iResponse : Nat
  iProduct : Nat
  iOutcome : Nat
  iMeeting : Nat
  iTimeframe : Nat
  iLanguage : Nat
  iSolution : Nat
  iCommunication : Nat
  iInvestment : Nat
  iTopic : Nat
  iBroker : Nat
  iExperience : Nat
  dayOff : Nat

/-- The sixteen keyword arguments passed to `template.format(...)`. -/
structure Vocab where
  interest : String
  level : String
  market : String
  channel : String
  response : String
  product : String
  outcome : String
  meeting_type : String
  timeframe : String
  language : String
  solution : String
  communication : String
  investment_type : String
  topic : String
  broker : String
  experience : String

/-- The sixteen `random.choice` draws of `generate_comments`, one from
each fixed vocabulary list. -/
def mkVocab (r : CommentRand) : Vocab where
  interest := pychoice interest_levels r.iInterest
  level := pychoice knowledge_levels r.iLevel
  market := pychoice markets r.iMarket
  channel := pychoice channels r.iChannel
  response := pychoice responses r.iResponse
  product := pychoice products r.iProduct
  outcome := pychoice outcomes r.iOutcome
  meeting_type := pychoice meeting_types r.iMeeting
  timeframe := pychoice timeframes r.iTimeframe
  language := pychoice languages r.iLanguage
  solution := pychoice solutions r.iSolution
  communication := pychoice communication_modes r.iCommunication
  investment_type := pychoice investment_types r.iInvestment
  topic := pychoice topics r.iTopic
  broker := pychoice brokers r.iBroker
  experience := pychoice experiences r.iExperience

/-- The keyword environment that `str.format` consults: a known key maps
to its vocabulary word; an unknown key is left in place (Python would
raise `KeyError`, a case that never occurs on the ten templates, as the
theorems below establish by producing brace-free output). -/
def vocabEnv (v : Vocab) (k : String) : String :=
  if k = "interest" then v.interest
  else if k = "level" then v.level
  else if k = "market" then v.market
  else if k = "channel" then v.channel
  else if k = "response" then v.response
  else if k = "product" then v.product
  else if k = "outcome" then v.outcome
  else if k = "meeting_type" then v.meeting_type
  else if k = "timeframe" then v.timeframe
  else if k = "language" then v.language
  else if k = "solution" then v.solution
  else if k = "communication" then v.communication
  else if k = "investment_type" then v.investment_type
  else if k = "topic" then v.topic
  else if k = "broker" then v.broker
  else if k = "experience" then v.experience
  else "\x7b" ++ k ++ "\x7d"

/-- One substitution pass of Python `str.format` over the characters of a
template: a brace-delimited `\x7bkey\x7d` is replaced by `env key`, every
other character is copied.  The fuel argument (instantiated with the
length of the input) makes the recursion structural; one unit of fuel is
spent per emitted segment, so the input length is always sufficient. -/
def substFuel (env : String → String) : Nat → List Char → List Char
  | 0, _ => []
  | _ + 1, [] => []
  | fuel + 1, c :: rest =>
    if c = '\x7b' then
      let key := rest.takeWhile (fun d => d ≠ '\x7d')
      let rest2 := (rest.dropWhile (fun d => d ≠ '\x7d')).drop 1
      (env (String.mk key)).data ++ substFuel env fuel rest2
    else c :: substFuel env fuel rest

/-- Embedding of `template.format(...)` for the named-placeholder
templates used by the source. -/
def applySubst (t : String) (env : String → String) : String :=
  String.mk (substFuel env t.data.length t.data)

structure Comment where
  text : String
  createdAt : Int
deriving DecidableEq

/-- One iteration of the comment loop of `generate_comments`: a template
chosen by `random.choice`, formatted with the sixteen vocabulary choices,
and a timestamp `randint(0, 30)` days in the past. -/
def mkComment (r : CommentRand) (now : Int) : Comment where
  text := applySubst (pychoice comment_templates r.t) (vocabEnv (mkVocab r))
  createdAt := now - pyRandint 0 30 r.dayOff

/-- Embedding of `generate_comments`: `randint(0, 3)` comments (the raw
input `n` selects the count as `n % 4`), each independently randomized. -/
def generate_comments (n : Nat) (rc : Nat → CommentRand) (now : Int) : List Comment :=
  (List.range (n % 4)).map (fun k => mkComment (rc k) now)

/-- The four lead types (`lead_types` in the source). -/
def lead_types : List String := ["ftd", "filler", "cold", "live"]

/-- The three gender values (`genders` in the source). -/
def genders : List String := ["male", "female", "not_defined"]

/-- The three priorities (`priorities` in the source). -/
def priorities : List String := ["low", "medium", "high"]

/-- The four valid lead statuses (`statuses` in the source). -/
def statuses : List String := ["active", "contacted", "converted", "inactive"]

/-- The four lead sources. -/
def lead_sources : List String := ["website", "referral", "social_media", "direct"]

/-- Raw random and faker inputs consumed by one call of `generate_lead`. -/
structure LeadRand where
  leadTypeIdx : Nat
  firstName : String
  lastName : String
  newEmail : String
  oldEmailP : Bool
  oldEmailV : String
  newPhoneR : PhoneRand
  oldPhoneP : Bool
  oldPhoneR : PhoneRand
  country : String
  clientP : Bool
  clientV : String
  clientBrokerP : Bool
  clientBrokerV : String
  clientNetworkP : Bool
  clientNetworkV : String
  genderIdx : Nat
  sm : SMRand
  nComments : Nat
  cr : Nat → CommentRand
  sourceIdx : Nat
  priorityIdx : Nat
  statusIdx : Nat
  createdOff : Nat
  dobOff : Nat
  addr : AddrRand
  docR : Nat
  sinR : Nat

/-- A lead record.  The fields that the Python dict carries only for some
lead types (`dob`, `address`, `documents`, `sin`) are `Option`s: `none`
models absence of the key. -/
structure Lead where
  leadType : String
  firstName : String
  lastName : String
  newEmail : String
  oldEmail : String
  newPhone : String
  oldPhone : String
  country : String
  isAssigned : Bool
  client : String
  clientBroker : String
  clientNetwork : String
  gender : String
  socialMedia : SocialMedia
  comments : List Comment
  source : String
  priority : String
  status : String
  createdAt : Int
  dob : Option Int
  address : Option Address
  documents : Option Documents
  sin : Option String

/-- Embedding of `generate_lead`: the base dict of lines 125-145 of the
source, then the `ftd`/`filler` update (`dob`, `address`) and the
`ftd`-only update (`documents`, `sin`). -/
def generate_lead (r : LeadRand) (now : Int) : Lead :=
  let lead_type := pychoice lead_types r.leadTypeIdx
  { leadType := lead_type
    firstName := r.firstName
    lastName := r.lastName
    newEmail := r.newEmail
    oldEmail := if r.oldEmailP then r.oldEmailV else ""
    newPhone := generate_phone r.newPhoneR
    oldPhone := if r.oldPhoneP then generate_phone r.oldPhoneR else ""
    country := r.country
    isAssigned := false
    client := if r.clientP then r.clientV else ""
    clientBroker := if r.clientBrokerP then r.clientBrokerV else ""
    clientNetwork := if r.clientNetworkP then r.clientNetworkV else ""
    gender := pychoice genders r.genderIdx
    socialMedia := generate_social_media r.sm
    comments := generate_comments r.nComments r.cr now
    source := pychoice lead_sources r.sourceIdx
    priority := pychoice priorities r.priorityIdx
    status := pychoice statuses r.statusIdx
    createdAt := now - pyRandint 0 365 r.createdOff
    dob :=
      if lead_type = "ftd" ∨ lead_type = "filler" then
        some (now - pyRandint 7300 25550 r.dobOff)
      else none
    address :=
      if lead_type = "ftd" ∨ lead_type = "filler" then
        some (generate_address r.addr)
      else none
    documents :=
      if lead_type = "ftd" then generate_documents "ftd" r.docR else none
    sin :=
      if lead_type = "ftd" then
        some (toString (pyRandint 100000000 999999999 r.sinR))
      else none }

/-- JSON values, as serialized by the `json.dump` call of the source.
Timestamps, which the embedding keeps as integer day counts, serialize
through the `int` constructor. -/
inductive Json where
  | null : Json
  | bool : Bool → Json
  | int : Int → Json
  | str : String → Json
  | arr : List Json → Json
  | obj : List (String × Json) → Json

/-- One hexadecimal digit, lower case. -/
def hexDigit (n : Nat) : Char :=
  if n < 10 then Char.ofNat (48 + n) else Char.ofNat (87 + n)

/-- Four hexadecimal digits, as in a JSON `\uXXXX` escape. -/
def hex4 (n : Nat) : String :=
  String.mk [hexDigit (n / 4096 % 16), hexDigit (n / 256 % 16),
             hexDigit (n / 16 % 16), hexDigit (n % 16)]

/-- String-character escaping of `json.dump` with `ensure_ascii=False`:
only the quote, the backslash and control characters are escaped;
non-ASCII characters pass through unchanged. -/
def jsonEscapeChar (c : Char) : String :=
  if c = '\"' then "\\\""
  else if c = '\\' then "\\\\"
  else if c = '\n' then "\\n"
  else if c = '\r' then "\\r"
  else if c = '\t' then "\\t"
  else if c = Char.ofNat 8 then "\\b"
  else if c = Char.ofNat 12 then "\\f"
  else if c.toNat < 32 then "\\u" ++ hex4 c.toNat
  else String.singleton c

/-- A JSON string literal under `ensure_ascii=False`. -/
def jsonQuote (s : String) : String :=
  "\"" ++ String.join (s.data.map jsonEscapeChar) ++ "\""

/-- The indentation prefix at nesting depth `n` for `indent=2`: `2 * n`
spaces. -/
def pad (n : Nat) : String :=
  String.mk (List.replicate (2 * n) ' ')

mutual

/-- Serialization of a JSON value at nesting depth `ind`, following
`json.dump(..., indent=2, ensure_ascii=False)`: empty containers render
as `[]` and `\x7b\x7d`; non-empty containers put each item on its own
line, indented two more spaces, with `,` item separators and `: ` key
separators. -/
def jsonDump (ind : Nat) : Json → String
  | Json.null => "null"
  | Json.bool b => if b then "true" else "false"
  | Json.int n => toString n
  | Json.str s => jsonQuote s
  | Json.arr [] => "[]"
  | Json.arr (x :: xs) =>
      "[\n" ++ pad (ind + 1) ++ jsonDump (ind + 1) x ++
        dumpArrRest (ind + 1) xs ++ "\n" ++ pad ind ++ "]"
  | Json.obj [] => "\x7b\x7d"
  | Json.obj (f :: fs) =>
      "\x7b\n" ++ pad (ind + 1) ++ dumpField (ind + 1) f ++
        dumpObjRest (ind + 1) fs ++ "\n" ++ pad ind ++ "\x7d"

/-- One `"key": value` member of a serialized JSON object. -/
def dumpField (ind : Nat) : String × Json → String
  | (k, v) => jsonQuote k ++ ": " ++ jsonDump ind v

/-- The remaining items of a serialized JSON array. -/
def dumpArrRest (ind : Nat) : List Json → String
  | [] => ""
  | x :: xs => ",\n" ++ pad ind ++ jsonDump ind x ++ dumpArrRest ind xs

/-- The remaining members of a serialized JSON object. -/
def dumpObjRest (ind : Nat) : List (String × Json) → String
  | [] => ""
  | f :: fs => ",\n" ++ pad ind ++ dumpField ind f ++ dumpObjRest ind fs

end

/-- The JSON object for a social-media bundle, keys in dict order. -/
def smToJson (s : SocialMedia) : Json :=
  Json.obj
    [ ("facebook", Json.str s.facebook)
    , ("twitter", Json.str s.twitter)
    , ("linkedin", Json.str s.linkedin)
    , ("instagram", Json.str s.instagram)
    , ("telegram", Json.str s.telegram)
    , ("whatsapp", Json.str s.whatsapp) ]

/-- The JSON object for an address, keys in dict order. -/
def addressToJson (a : Address) : Json :=
  Json.obj
    [ ("street", Json.str a.street)
    , ("city", Json.str a.city)
    , ("postalCode", Json.str a.postalCode) ]

/-- The JSON object for an FTD document set, keys in dict order. -/
def documentsToJson (d : Documents) : Json :=
  Json.obj
    [ ("idFrontUrl", Json.str d.idFrontUrl)
    , ("idBackUrl", Json.str d.idBackUrl)
    , ("selfieUrl", Json.str d.selfieUrl)
    , ("residenceProofUrl", Json.str d.residenceProofUrl)
    , ("status", Json.str d.status) ]

/-- The JSON object for one comment. -/
def commentToJson (c : Comment) : Json :=
  Json.obj [ ("text", Json.str c.text), ("createdAt", Json.int c.createdAt) ]

/-- The JSON object for one lead, keys in the insertion order of the
Python dict: the base keys of lines 125-145, then `dob`/`address` when
present, then `documents`/`sin` when present. -/
def leadToJson (l : Lead) : Json :=
  Json.obj
    ([ ("leadType", Json.str l.leadType)
     , ("firstName", Json.str l.firstName)
     , ("lastName", Json.str l.lastName)
     , ("newEmail", Json.str l.newEmail)
     , ("oldEmail", Json.str l.oldEmail)
     , ("newPhone", Json.str l.newPhone)
     , ("oldPhone", Json.str l.oldPhone)
     , ("country", Json.str l.country)
     , ("isAssigned", Json.bool l.isAssigned)
     , ("client", Json.str l.client)
     , ("clientBroker", Json.str l.clientBroker)
     , ("clientNetwork", Json.str l.clientNetwork)
     , ("gender", Json.str l.gender)
     , ("socialMedia", smToJson l.socialMedia)
     , ("comments", Json.arr (l.comments.map commentToJson))
     , ("source", Json.str l.source)
     , ("priority", Json.str l.priority)
     , ("status", Json.str l.status)
     , ("createdAt", Json.int l.createdAt) ] ++
     (match l.dob with | some d => [("dob", Json.int d)] | none => []) ++
     (match l.address with | some a => [("address", addressToJson a)] | none => []) ++
     (match l.documents with | some d => [("documents", documentsToJson d)] | none => []) ++
     (match l.sin with | some s => [("sin", Json.str s)] | none => []))

/-- The JSON document produced by `generate_leads_file` for a count
`num_leads`: the list comprehension `[generate_lead() for _ in
range(num_leads)]` serialized as one array.  Python's `range` is empty
for a non-positive argument, which `Int.toNat` reproduces. -/
def leadsDoc (num_leads : Int) (r : Nat → LeadRand) (now : Int) : Json :=
  Json.arr
    (((List.range num_leads.toNat).map (fun k => generate_lead (r k) now)).map
      leadToJson)

/-- Embedding of `generate_leads_file`: the content written to the output
file, i.e. the lead array serialized by
`json.dump(leads, f, indent=2, ensure_ascii=False)`. -/
def generate_leads_file (num_leads : Int) (r : Nat → LeadRand) (now : Int) :
    String :=
  jsonDump 0 (leadsDoc num_leads r now)

/-- Digit-string accumulation for `int(...)`: `none` on the first
non-digit character. -/
def digitsToNat : List Char → Nat → Option Nat
  | [], acc => some acc
  | c :: rest, acc =>
      if c.isDigit then digitsToNat rest (acc * 10 + (c.toNat - 48))
      else none

/-- Model of the integer conversion `argparse` applies for `type=int`:
surrounding spaces are ignored, an optional single sign precedes one or
more decimal digits, and anything else is rejected. -/
def pyParseInt (s : String) : Option Int :=
  let cs := s.data.dropWhile (fun c => c = ' ')
  let cs := (cs.reverse.dropWhile (fun c => c = ' ')).reverse
  match cs with
  | [] => none
  | '-' :: rest =>
      if rest = [] then none
      else (digitsToNat rest 0).map (fun n => -(n : Int))
  | '+' :: rest =>
      if rest = [] then none
      else (digitsToNat rest 0).map (fun n => (n : Int))
  | rest => (digitsToNat rest 0).map (fun n => (n : Int))

/-- Embedding of the `__main__` block: parse the optional positional
`num_leads` argument (default 50); on parse failure `argparse` exits with
an error and no file is written (`none`); otherwise the run writes the
serialized document (`some`). -/
def run_main (arg : Option String) (r : Nat → LeadRand) (now : Int) :
    Option String :=
  match arg with
  | none => some (generate_leads_file 50 r now)
  | some s =>
      match pyParseInt s with
      | none => none
      | some n => some (generate_leads_file n r now)

/-- Exception-aware model of the list comprehension of
`generate_leads_file`: the sub-generator call for each index may fail
(Python: raise), and the comprehension produces a value only when every
call succeeds, preserving order. -/
def collectLeads (gen : Nat → Option Lead) : Nat → Option (List Lead)
  | 0 => some []
  | n + 1 =>
      match collectLeads gen n, gen n with
      | some ls, some l => some (ls ++ [l])
      | _, _ => none

/-- Exception-aware model of `generate_leads_file`: the output file is
opened and written only after the whole lead list has been built, so a
failing sub-generator yields no file at all (`none`). -/
def run_generation (n : Nat) (gen : Nat → Option Lead) : Option String :=
  match collectLeads gen n with
  | some leads => some (jsonDump 0 (Json.arr (leads.map leadToJson)))
  | none => none

/-- `true` when no character of the list is an opening or closing brace,
i.e. when no (part of a) format placeholder is present. -/
def noBraceL (l : List Char) : Bool :=
  l.all (fun c => c ≠ '\x7b' && c ≠ '\x7d')

/-- `true` when the string contains no brace character. -/
def noBraceB (s : String) : Bool :=
  noBraceL s.data

/-- `true` when the JSON value is an object carrying every key of `ks`. -/
def isObjWithKeys (j : Json) (ks : List String) : Bool :=
  match j with
  | Json.obj fs => ks.all (fun k => (fs.map Prod.fst).contains k)
  | _ => false

/-- The base fields required of every serialized lead object. -/
def base_fields : List String :=
  ["firstName", "lastName", "newEmail", "newPhone", "country", "leadType",
   "status", "priority", "source", "createdAt"]

/-- A concrete all-zero comment randomness, for witnesses. -/
def crand0 : CommentRand :=
  ⟨0, 0, 0, 0, 0, 0, 0, 0, 0, 0, 0, 0, 0, 0, 0, 0, 0, 0⟩

/-- A concrete phone randomness, for witnesses. -/
def prand0 : PhoneRand := ⟨0, ""⟩

/-- A concrete social-media randomness, for witnesses. -/
def smrand0 : SMRand :=
  ⟨false, false, false, false, false, false, "", "", "", "", "", prand0⟩

/-- A concrete address randomness, for witnesses. -/
def arand0 : AddrRand := ⟨"", "", ""⟩

/-- A concrete lead randomness with lead-type index `i` and no comments,
for witnesses. -/
def lrandIdx (i : Nat) : LeadRand where
  leadTypeIdx := i
  firstName := ""
  lastName := ""
  newEmail := ""
  oldEmailP := false
  oldEmailV := ""
  newPhoneR := prand0
  oldPhoneP := false
  oldPhoneR := prand0
  country := ""
  clientP := false
  clientV := ""
  clientBrokerP := false
  clientBrokerV := ""
  clientNetworkP := false
  clientNetworkV := ""
  genderIdx := 0
  sm := smrand0
  nComments := 0
  cr := fun _ => crand0
  sourceIdx := 0
  priorityIdx := 0
  statusIdx := 0
  createdOff := 0
  dobOff := 0
  addr := arand0
  docR := 0
  sinR := 0

/-- A concrete lead randomness generating exactly one comment, for
witnesses. -/
def lrand1 : LeadRand := { lrandIdx 0 with nComments := 1 }

/-- Each vocabulary word of a comment belongs to the fixed list of its
placeholder. -/
def vocabInLists (v : Vocab) : Prop :=
  v.interest ∈ interest_levels ∧ v.level ∈ knowledge_levels ∧
  v.market ∈ markets ∧ v.channel ∈ channels ∧ v.response ∈ responses ∧
  v.product ∈ products ∧ v.outcome ∈ outcomes ∧
  v.meeting_type ∈ meeting_types ∧ v.timeframe ∈ timeframes ∧
  v.language ∈ languages ∧ v.solution ∈ solutions ∧
  v.communication ∈ communication_modes ∧
  v.investment_type ∈ investment_types ∧ v.topic ∈ topics ∧
  v.broker ∈ brokers ∧ v.experience ∈ experiences

/-!  Theorems.  First the two range facts about the randomness model,
then component equations for `generate_lead`, then the claim theorems. -/

theorem pyRandint_bounds (a b : Int) (r : Nat) (hab : a ≤ b) :
    a ≤ pyRandint a b r ∧ pyRandint a b r ≤ b := by
  unfold pyRandint
  have hpos : (0:Int) < b - a + 1 := by omega
  have hlt : r % (b - a + 1).toNat < (b - a + 1).toNat :=
    Nat.mod_lt _ (by omega)
  omega

theorem pychoice_mem (l : List String) (hl : l ≠ []) (r : Nat) :
    pychoice l r ∈ l := by
  unfold pychoice
  have hlen : 0 < l.length := List.length_pos.mpr hl
  have hlt : r % l.length < l.length := Nat.mod_lt _ hlen
  rw [List.getD_eq_getElem l "" hlt]
  exact List.getElem_mem hlt

theorem pychoice_lead_types (n : Nat) :
    pychoice lead_types n = "ftd" ∨ pychoice lead_types n = "filler" ∨
    pychoice lead_types n = "cold" ∨ pychoice lead_types n = "live" := by
  have h := pychoice_mem lead_types (by decide) n
  simpa [lead_types] using h

theorem generate_lead_leadType (r : LeadRand) (now : Int) :
    (generate_lead r now).leadType = pychoice lead_types r.leadTypeIdx := rfl

theorem generate_lead_dob (r : LeadRand) (now : Int) :
    (generate_lead r now).dob =
      if pychoice lead_types r.leadTypeIdx = "ftd" ∨
         pychoice lead_types r.leadTypeIdx = "filler" then
        some (now - pyRandint 7300 25550 r.dobOff)
      else none := rfl

theorem generate_lead_address (r : LeadRand) (now : Int) :
    (generate_lead r now).address =
      if pychoice lead_types r.leadTypeIdx = "ftd" ∨
         pychoice lead_types r.leadTypeIdx = "filler" then
        some (generate_address r.addr)
      else none := rfl

theorem generate_lead_documents (r : LeadRand) (now : Int) :
    (generate_lead r now).documents =
      if pychoice lead_types r.leadTypeIdx = "ftd" then
        generate_documents "ftd" r.docR
      else none := rfl

theorem generate_lead_sin (r : LeadRand) (now : Int) :
    (generate_lead r now).sin =
      if pychoice lead_types r.leadTypeIdx = "ftd" then
        some (toString (pyRandint 100000000 999999999 r.sinR))
      else none := rfl

theorem generate_lead_createdAt (r : LeadRand) (now : Int) :
    (generate_lead r now).createdAt = now - pyRandint 0 365 r.createdOff := rfl

theorem generate_lead_comments (r : LeadRand) (now : Int) :
    (generate_lead r now).comments =
      generate_comments r.nComments r.cr now := rfl

/-- C8: for every generated lead record, the `isAssigned` field is
present and is the boolean value `false`. -/
theorem lead_isAssigned_false (r : LeadRand) (now : Int) :
    (generate_lead r now).isAssigned = false := rfl

/-- C9: `generate_documents` returns `none` for every lead type other
than `"ftd"`; for `"ftd"` it returns a record whose four URL fields all
equal the fixed placeholder URL (hence one another) and whose status is
one of `good`, `ok`, `pending`. -/
theorem generate_documents_spec (lead_type : String) (r : Nat) :
    (lead_type ≠ "ftd" → generate_documents lead_type r = none) ∧
    (∃ d, generate_documents "ftd" r = some d ∧
      d.idFrontUrl = image_url ∧ d.idBackUrl = image_url ∧
      d.selfieUrl = image_url ∧ d.residenceProofUrl = image_url ∧
      d.status ∈ status_choices) := by
  constructor
  · intro h
    simp [generate_documents, h]
  · refine ⟨⟨image_url, image_url, image_url, image_url,
      pychoice status_choices r⟩, ?_, rfl, rfl, rfl, rfl, ?_⟩
    · simp [generate_documents]
    · exact pychoice_mem status_choices (by decide) r

/-- Witness for `generate_documents_spec` at the concrete lead type
`"cold"` and random input `0`. -/
theorem generate_documents_spec_witness :
    generate_documents "cold" 0 = none ∧
    (∃ d, generate_documents "ftd" 0 = some d ∧
      d.idFrontUrl = image_url ∧ d.idBackUrl = image_url ∧
      d.selfieUrl = image_url ∧ d.residenceProofUrl = image_url ∧
      d.status ∈ status_choices) :=
  ⟨(generate_documents_spec "cold" 0).1 (by decide),
   (generate_documents_spec "cold" 0).2⟩

/-- C1: the lead type fully determines which conditional field groups are
present: `ftd` records carry `dob`, `address`, `documents` (with a valid
status) and `sin`; `filler` records carry `dob` and `address` but neither
`documents` nor `sin`; `cold` and `live` records carry none of the
four. -/
theorem leadType_determines_fields (r : LeadRand) (now : Int) :
    ((generate_lead r now).leadType = "ftd" →
      (generate_lead r now).dob.isSome ∧ (generate_lead r now).address.isSome ∧
      (∃ d, (generate_lead r now).documents = some d ∧
        d.status ∈ status_choices) ∧
      (generate_lead r now).sin.isSome) ∧
    ((generate_lead r now).leadType = "filler" →
      (generate_lead r now).dob.isSome ∧ (generate_lead r now).address.isSome ∧
      (generate_lead r now).documents = none ∧
      (generate_lead r now).sin = none) ∧
    (((generate_lead r now).leadType = "cold" ∨
      (generate_lead r now).leadType = "live") →
      (generate_lead r now).dob = none ∧ (generate_lead r now).address = none ∧
      (generate_lead r now).documents = none ∧
      (generate_lead r now).sin = none) := by
  rw [generate_lead_leadType]
  refine ⟨?_, ?_, ?_⟩ <;> intro h
  · rw [generate_lead_dob, generate_lead_address, generate_lead_documents,
      generate_lead_sin, h]
    refine ⟨by simp, by simp, ?_, by simp⟩
    simp only [if_pos rfl]
    exact ⟨⟨image_url, image_url, image_url, image_url,
      pychoice status_choices r.docR⟩,
      by simp [generate_documents],
      pychoice_mem status_choices (by decide) r.docR⟩
  · rw [generate_lead_dob, generate_lead_address, generate_lead_documents,
      generate_lead_sin, h]
    simp
  · rcases h with h | h <;>
      rw [generate_lead_dob, generate_lead_address, generate_lead_documents,
        generate_lead_sin, h] <;> simp

/-- Witness for `leadType_determines_fields`, discharging its three
hypotheses at concrete lead randomness of each lead type (indices 0, 1
and 2 select `"ftd"`, `"filler"` and `"cold"`). -/
theorem leadType_determines_fields_witness :
    ((generate_lead (lrandIdx 0) 0).dob.isSome ∧
     (generate_lead (lrandIdx 0) 0).address.isSome ∧
     (∃ d, (generate_lead (lrandIdx 0) 0).documents = some d ∧
       d.status ∈ status_choices) ∧
     (generate_lead (lrandIdx 0) 0).sin.isSome) ∧
    ((generate_lead (lrandIdx 1) 0).dob.isSome ∧
     (generate_lead (lrandIdx 1) 0).address.isSome ∧
     (generate_lead (lrandIdx 1) 0).documents = none ∧
     (generate_lead (lrandIdx 1) 0).sin = none) ∧
    ((generate_lead (lrandIdx 2) 0).dob = none ∧
     (generate_lead (lrandIdx 2) 0).address = none ∧
     (generate_lead (lrandIdx 2) 0).documents = none ∧
     (generate_lead (lrandIdx 2) 0).sin = none) :=
  ⟨(leadType_determines_fields (lrandIdx 0) 0).1 (by decide),
   (leadType_determines_fields (lrandIdx 1) 0).2.1 (by decide),
   (leadType_determines_fields (lrandIdx 2) 0).2.2 (Or.inl (by decide))⟩

/-- C4: every lead's `createdAt` lies within the 365 days preceding
generation time, and whenever a date of birth is present (lead types
`ftd` and `filler`) it lies between 20 and 70 years (of 365 days) before
generation time. -/
theorem lead_timestamps_in_range (r : LeadRand) (now : Int) :
    (now - 365 ≤ (generate_lead r now).createdAt ∧
     (generate_lead r now).createdAt ≤ now) ∧
    (∀ d : Int, (generate_lead r now).dob = some d →
      now - 70 * 365 ≤ d ∧ d ≤ now - 20 * 365) := by
  constructor
  · rw [generate_lead_createdAt]
    have h := pyRandint_bounds 0 365 r.createdOff (by omega)
    omega
  · intro d hd
    rw [generate_lead_dob] at hd
    by_cases hlt : pychoice lead_types r.leadTypeIdx = "ftd" ∨
        pychoice lead_types r.leadTypeIdx = "filler"
    · rw [if_pos hlt] at hd
      have h := pyRandint_bounds 7300 25550 r.dobOff (by omega)
      have hd2 : d = now - pyRandint 7300 25550 r.dobOff :=
        (Option.some.injEq _ _ ▸ hd).symm
      omega
    · rw [if_neg hlt] at hd
      exact absurd hd (by simp)

/-- Witness for `lead_timestamps_in_range` at concrete `ftd` randomness
(`lrandIdx 0`, whose date of birth evaluates to day `-7300`). -/
theorem lead_timestamps_in_range_witness :
    ((0:Int) - 365 ≤ (generate_lead (lrandIdx 0) 0).createdAt ∧
     (generate_lead (lrandIdx 0) 0).createdAt ≤ 0) ∧
    ((0:Int) - 70 * 365 ≤ -7300 ∧ (-7300:Int) ≤ 0 - 20 * 365) :=
  ⟨(lead_timestamps_in_range (lrandIdx 0) 0).1,
   (lead_timestamps_in_range (lrandIdx 0) 0).2 (-7300) (by decide)⟩

/-- C6: every lead carries between 0 and 3 comments, and every comment's
`createdAt` lies within the 30 days preceding generation time. -/
theorem lead_comments_spec (r : LeadRand) (now : Int) :
    (generate_lead r now).comments.length ≤ 3 ∧
    (∀ c ∈ (generate_lead r now).comments,
      now - 30 ≤ c.createdAt ∧ c.createdAt ≤ now) := by
  rw [generate_lead_comments]
  constructor
  · have h4 : r.nComments % 4 < 4 := Nat.mod_lt _ (by omega)
    simp only [generate_comments, List.length_map, List.length_range]
    omega
  · intro c hc
    simp only [generate_comments, List.mem_map, List.mem_range] at hc
    obtain ⟨k, _, hk⟩ := hc
    have h := pyRandint_bounds 0 30 (r.cr k).dayOff (by omega)
    have hct : c.createdAt = now - pyRandint 0 30 (r.cr k).dayOff := by
      rw [← hk]; rfl
    omega

/-- Witness for `lead_comments_spec` at `lrand1`, whose single comment is
`mkComment crand0 0`. -/
theorem lead_comments_spec_witness :
    (generate_lead lrand1 0).comments.length ≤ 3 ∧
    ((0:Int) - 30 ≤ (mkComment crand0 0).createdAt ∧
     (mkComment crand0 0).createdAt ≤ 0) :=
  ⟨(lead_comments_spec lrand1 0).1,
   (lead_comments_spec lrand1 0).2 (mkComment crand0 0) (by decide)⟩

theorem noBraceB_mk (l : List Char) : noBraceB (String.mk l) = noBraceL l := rfl

theorem noBraceL_append (a b : List Char) :
    noBraceL (a ++ b) = (noBraceL a && noBraceL b) := by
  simp [noBraceL, List.all_append]

theorem noBraceL_pychoice (l : List String)
    (h : ∀ s ∈ l, noBraceL s.data = true) (r : Nat) :
    noBraceL (pychoice l r).data = true := by
  by_cases hl : l = []
  · subst hl; rfl
  · exact h _ (pychoice_mem l hl r)

theorem vocabEnv_interest (r : CommentRand) :
    vocabEnv (mkVocab r) "interest" = pychoice interest_levels r.iInterest := rfl

theorem vocabEnv_level (r : CommentRand) :
    vocabEnv (mkVocab r) "level" = pychoice knowledge_levels r.iLevel := rfl

theorem vocabEnv_market (r : CommentRand) :
    vocabEnv (mkVocab r) "market" = pychoice markets r.iMarket := rfl

theorem vocabEnv_channel (r : CommentRand) :
    vocabEnv (mkVocab r) "channel" = pychoice channels r.iChannel := rfl

theorem vocabEnv_response (r : CommentRand) :
    vocabEnv (mkVocab r) "response" = pychoice responses r.iResponse := rfl

theorem vocabEnv_product (r : CommentRand) :
    vocabEnv (mkVocab r) "product" = pychoice products r.iProduct := rfl

theorem vocabEnv_outcome (r : CommentRand) :
    vocabEnv (mkVocab r) "outcome" = pychoice outcomes r.iOutcome := rfl

theorem vocabEnv_meeting_type (r : CommentRand) :
    vocabEnv (mkVocab r) "meeting_type" = pychoice meeting_types r.iMeeting := rfl

theorem vocabEnv_timeframe (r : CommentRand) :
    vocabEnv (mkVocab r) "timeframe" = pychoice timeframes r.iTimeframe := rfl

theorem vocabEnv_language (r : CommentRand) :
    vocabEnv (mkVocab r) "language" = pychoice languages r.iLanguage := rfl

theorem vocabEnv_solution (r : CommentRand) :
    vocabEnv (mkVocab r) "solution" = pychoice solutions r.iSolution := rfl

theorem vocabEnv_communication (r : CommentRand) :
    vocabEnv (mkVocab r) "communication" =
      pychoice communication_modes r.iCommunication := rfl

theorem vocabEnv_investment_type (r : CommentRand) :
    vocabEnv (mkVocab r) "investment_type" =
      pychoice investment_types r.iInvestment := rfl

theorem vocabEnv_topic (r : CommentRand) :
    vocabEnv (mkVocab r) "topic" = pychoice topics r.iTopic := rfl

theorem vocabEnv_broker (r : CommentRand) :
    vocabEnv (mkVocab r) "broker" = pychoice brokers r.iBroker := rfl

theorem vocabEnv_experience (r : CommentRand) :
    vocabEnv (mkVocab r) "experience" = pychoice experiences r.iExperience := rfl

theorem subst_template0 (env : String → String) :
    applySubst (comment_templates.getD 0 "") env =
      String.mk ("Initial contact made, ".data ++
        ((env "interest").data ++ " in trading".data)) := rfl

theorem subst_template1 (env : String → String) :
    applySubst (comment_templates.getD 1 "") env =
      String.mk ("Client shows ".data ++
        ((env "level").data ++ (" knowledge about ".data ++
          ((env "market").data ++ [])))) := rfl

theorem subst_template2 (env : String → String) :
    applySubst (comment_templates.getD 2 "") env =
      String.mk ("Followed up via ".data ++
        ((env "channel").data ++ (", ".data ++
          ((env "response").data ++ [])))) := rfl

theorem subst_template3 (env : String → String) :
    applySubst (comment_templates.getD 3 "") env =
      String.mk ("Discussed ".data ++
        ((env "product").data ++ (" options, ".data ++
          ((env "outcome").data ++ [])))) := rfl

theorem subst_template4 (env : String → String) :
    applySubst (comment_templates.getD 4 "") env =
      String.mk ("Scheduled ".data ++
        ((env "meeting_type").data ++ (" for ".data ++
          ((env "timeframe").data ++ [])))) := rfl

theorem subst_template5 (env : String → String) :
    applySubst (comment_templates.getD 5 "") env =
      String.mk ((env "language").data ++ (" barrier noted, ".data ++
        ((env "solution").data ++ " required".data))) := rfl

theorem subst_template6 (env : String → String) :
    applySubst (comment_templates.getD 6 "") env =
      String.mk ("Client prefers ".data ++
        ((env "communication").data ++ " for future contact".data)) := rfl

theorem subst_template7 (env : String → String) :
    applySubst (comment_templates.getD 7 "") env =
      String.mk ("Potential for ".data ++
        ((env "investment_type").data ++ " investment identified".data)) := rfl

theorem subst_template8 (env : String → String) :
    applySubst (comment_templates.getD 8 "") env =
      String.mk ("Requires more information about ".data ++
        ((env "topic").data ++ [])) := rfl

theorem subst_template9 (env : String → String) :
    applySubst (comment_templates.getD 9 "") env =
      String.mk ("Previous experience with ".data ++
        ((env "broker").data ++ (", ".data ++
          ((env "experience").data ++ [])))) := rfl

theorem mkComment_text_noBrace (r : CommentRand) (now : Int) :
    noBraceB (mkComment r now).text = true := by
  have h10 : r.t % 10 < 10 := Nat.mod_lt _ (by omega)
  have he : (mkComment r now).text =
      applySubst (comment_templates.getD (r.t % 10) "")
        (vocabEnv (mkVocab r)) := rfl
  rw [he]
  have hd : r.t % 10 = 0 ∨ r.t % 10 = 1 ∨ r.t % 10 = 2 ∨ r.t % 10 = 3 ∨
      r.t % 10 = 4 ∨ r.t % 10 = 5 ∨ r.t % 10 = 6 ∨ r.t % 10 = 7 ∨
      r.t % 10 = 8 ∨ r.t % 10 = 9 := by omega
  rcases hd with h | h | h | h | h | h | h | h | h | h <;> rw [h]
  · rw [subst_template0]
    simp only [noBraceB_mk, noBraceL_append, vocabEnv_interest,
      noBraceL_pychoice interest_levels (by decide) r.iInterest]
    decide
  · rw [subst_template1]
    simp only [noBraceB_mk, noBraceL_append, vocabEnv_level, vocabEnv_market,
      noBraceL_pychoice knowledge_levels (by decide) r.iLevel,
      noBraceL_pychoice markets (by decide) r.iMarket]
    decide
  · rw [subst_template2]
    simp only [noBraceB_mk, noBraceL_append, vocabEnv_channel,
      vocabEnv_response,
      noBraceL_pychoice channels (by decide) r.iChannel,
      noBraceL_pychoice responses (by decide) r.iResponse]
    decide
  · rw [subst_template3]
    simp only [noBraceB_mk, noBraceL_append, vocabEnv_product,
      vocabEnv_outcome,
      noBraceL_pychoice products (by decide) r.iProduct,
      noBraceL_pychoice outcomes (by decide) r.iOutcome]
    decide
  · rw [subst_template4]
    simp only [noBraceB_mk, noBraceL_append, vocabEnv_meeting_type,
      vocabEnv_timeframe,
      noBraceL_pychoice meeting_types (by decide) r.iMeeting,
      noBraceL_pychoice timeframes (by decide) r.iTimeframe]
    decide
  · rw [subst_template5]
    simp only [noBraceB_mk, noBraceL_append, vocabEnv_language,
      vocabEnv_solution,
      noBraceL_pychoice languages (by decide) r.iLanguage,
      noBraceL_pychoice solutions (by decide) r.iSolution]
    decide
  · rw [subst_template6]
    simp only [noBraceB_mk, noBraceL_append, vocabEnv_communication,
      noBraceL_pychoice communication_modes (by decide) r.iCommunication]
    decide
  · rw [subst_template7]
    simp only [noBraceB_mk, noBraceL_append, vocabEnv_investment_type,
      noBraceL_pychoice investment_types (by decide) r.iInvestment]
    decide
  · rw [subst_template8]
    simp only [noBraceB_mk, noBraceL_append, vocabEnv_topic,
      noBraceL_pychoice topics (by decide) r.iTopic]
    decide
  · rw [subst_template9]
    simp only [noBraceB_mk, noBraceL_append, vocabEnv_broker,
      vocabEnv_experience,
      noBraceL_pychoice brokers (by decide) r.iBroker,
      noBraceL_pychoice experiences (by decide) r.iExperience]
    decide

/-- C10: every generated comment's text is one of the ten fixed sentence
templates with each named placeholder replaced by a word drawn from that
placeholder's fixed vocabulary, and no comment text contains an
unsubstituted brace-delimited placeholder (it contains no brace at
all). -/
theorem comment_text_templated (r : CommentRand) (now : Int) :
    (∃ i, i < 10 ∧
      (mkComment r now).text =
        applySubst (comment_templates.getD i "") (vocabEnv (mkVocab r))) ∧
    vocabInLists (mkVocab r) ∧
    noBraceB (mkComment r now).text = true := by
  refine ⟨⟨r.t % 10, Nat.mod_lt _ (by omega), rfl⟩, ?_, mkComment_text_noBrace r now⟩
  exact ⟨pychoice_mem _ (by decide) _, pychoice_mem _ (by decide) _,
    pychoice_mem _ (by decide) _, pychoice_mem _ (by decide) _,
    pychoice_mem _ (by decide) _, pychoice_mem _ (by decide) _,
    pychoice_mem _ (by decide) _, pychoice_mem _ (by decide) _,
    pychoice_mem _ (by decide) _, pychoice_mem _ (by decide) _,
    pychoice_mem _ (by decide) _, pychoice_mem _ (by decide) _,
    pychoice_mem _ (by decide) _, pychoice_mem _ (by decide) _,
    pychoice_mem _ (by decide) _, pychoice_mem _ (by decide) _⟩

/-- C5: running the generator with `num_leads = 0` succeeds and the
written content is the empty JSON array. -/
theorem leads_file_zero (r : Nat → LeadRand) (now : Int) :
    leadsDoc 0 r now = Json.arr [] ∧ generate_leads_file 0 r now = "[]" := by
  refine ⟨rfl, ?_⟩
  show jsonDump 0 (leadsDoc 0 r now) = "[]"
  have h : leadsDoc 0 r now = Json.arr [] := rfl
  rw [h]
  simp [jsonDump]

theorem leadToJson_hasBaseKeys (l : Lead) :
    isObjWithKeys (leadToJson l) base_fields = true := by
  simp only [leadToJson, isObjWithKeys, base_fields]
  simp [List.map_append]

/-- C3: for every positive count `n` the produced document is a single
JSON array of exactly `n` lead objects, each carrying at least the base
fields, and the written file content is that array serialized by the
2-space-indent, non-ASCII-preserving dump. -/
theorem leads_file_array_of_n (n : Int) (_hn : 0 < n) (r : Nat → LeadRand)
    (now : Int) :
    ∃ ds : List Json,
      leadsDoc n r now = Json.arr ds ∧
      ds.length = n.toNat ∧
      (∀ d ∈ ds, isObjWithKeys d base_fields = true) ∧
      generate_leads_file n r now = jsonDump 0 (Json.arr ds) := by
  refine ⟨((List.range n.toNat).map (fun k => generate_lead (r k) now)).map
    leadToJson, rfl, by simp, ?_, rfl⟩
  intro d hd
  simp only [List.mem_map] at hd
  obtain ⟨l, _, hl⟩ := hd
  rw [← hl]
  exact leadToJson_hasBaseKeys l

/-- Witness for `leads_file_array_of_n` at the concrete count 5. -/
theorem leads_file_array_of_n_witness :
    (0:Int) < 5 ∧
    ∃ ds : List Json,
      leadsDoc 5 (fun _ => lrandIdx 0) 0 = Json.arr ds ∧
      ds.length = (5:Int).toNat ∧
      (∀ d ∈ ds, isObjWithKeys d base_fields = true) ∧
      generate_leads_file 5 (fun _ => lrandIdx 0) 0 = jsonDump 0 (Json.arr ds) :=
  ⟨by decide, leads_file_array_of_n 5 (by decide) (fun _ => lrandIdx 0) 0⟩

/-- Counterexample to C2: the count `-1` is not a positive integer, yet
the program accepts it (`argparse` with `type=int` only rejects
non-integer text) and writes an output file containing the empty JSON
array, instead of reporting a validation error and writing nothing. -/
theorem negative_count_writes_file :
    run_main (some "-1") (fun _ => lrandIdx 0) 0 = some "[]" := by
  have h1 : run_main (some "-1") (fun _ => lrandIdx 0) 0 =
      some (jsonDump 0 (Json.arr [])) := rfl
  have h2 : jsonDump 0 (Json.arr []) = "[]" := by simp [jsonDump]
  rw [h1, h2]

/-- C2 as amended: a count argument that is not an integer at all is
rejected by argument parsing and no output file is written; but an
integer count that is zero or negative is accepted and produces an
output file containing the empty JSON array. -/
theorem count_validation_amended (s : String) (r : Nat → LeadRand)
    (now : Int) :
    (pyParseInt s = none → run_main (some s) r now = none) ∧
    (∀ n : Int, pyParseInt s = some n → n ≤ 0 →
      run_main (some s) r now = some "[]") := by
  constructor
  · intro h
    simp [run_main, h]
  · intro n hn hle
    have hzero : n.toNat = 0 := by omega
    simp [run_main, hn, generate_leads_file, leadsDoc, hzero, jsonDump]

/-- Witness for `count_validation_amended` at the concrete arguments
`"abc"` (rejected, no file) and `"-7"` (accepted, empty-array file). -/
theorem count_validation_amended_witness :
    run_main (some "abc") (fun _ => lrandIdx 0) 0 = none ∧
    run_main (some "-7") (fun _ => lrandIdx 0) 0 = some "[]" :=
  ⟨(count_validation_amended "abc" (fun _ => lrandIdx 0) 0).1 rfl,
   (count_validation_amended "-7" (fun _ => lrandIdx 0) 0).2 (-7) rfl
     (by decide)⟩

theorem collectLeads_none (gen : Nat → Option Lead) :
    ∀ n, (∃ k, k < n ∧ gen k = none) → collectLeads gen n = none := by
  intro n
  induction n with
  | zero => rintro ⟨k, hk, _⟩; omega
  | succ m ih =>
    rintro ⟨k, hk, hg⟩
    by_cases hkm : k < m
    · have h := ih ⟨k, hkm, hg⟩
      simp [collectLeads, h]
    · have hke : k = m := by omega
      subst hke
      cases hcl : collectLeads gen k <;> simp [collectLeads, hcl, hg]

theorem collectLeads_all_some (gen : Nat → Option Lead) :
    ∀ n, (∀ k, k < n → (gen k).isSome) →
      ∃ leads, collectLeads gen n = some leads ∧ leads.length = n := by
  intro n
  induction n with
  | zero => exact fun _ => ⟨[], rfl, rfl⟩
  | succ m ih =>
    intro h
    obtain ⟨ls, hls, hlen⟩ := ih (fun k hk => h k (by omega))
    obtain ⟨l, hl⟩ := Option.isSome_iff_exists.mp (h m (by omega))
    exact ⟨ls ++ [l], by simp [collectLeads, hls, hl], by simp [hlen]⟩

theorem collectLeads_map (f : Nat → Lead) : ∀ n,
    collectLeads (fun k => some (f k)) n = some ((List.range n).map f) := by
  intro n
  induction n with
  | zero => rfl
  | succ m ih => simp [collectLeads, ih, List.range_succ]

/-- C7: generation is all-or-nothing.  If any sub-generator call fails,
the whole run yields no output file; if all `n` calls succeed, the output
is the serialization of the complete list of `n` records; and on the
never-failing generators of the source this coincides with
`generate_leads_file`. -/
theorem generation_all_or_nothing (n : Nat) (gen : Nat → Option Lead) :
    ((∃ k, k < n ∧ gen k = none) → run_generation n gen = none) ∧
    ((∀ k, k < n → (gen k).isSome) →
      ∃ leads, collectLeads gen n = some leads ∧ leads.length = n ∧
        run_generation n gen =
          some (jsonDump 0 (Json.arr (leads.map leadToJson)))) ∧
    (∀ (r : Nat → LeadRand) (now : Int),
      run_generation n (fun k => some (generate_lead (r k) now)) =
        some (generate_leads_file (n : Int) r now)) := by
  refine ⟨?_, ?_, ?_⟩
  · intro h
    simp [run_generation, collectLeads_none gen n h]
  · intro h
    obtain ⟨leads, hl, hlen⟩ := collectLeads_all_some gen n h
    exact ⟨leads, hl, hlen, by simp [run_generation, hl]⟩
  · intro r now
    simp [run_generation, collectLeads_map, generate_leads_file, leadsDoc]

/-- Witness for `generation_all_or_nothing` at `n = 1`: a failing
generator produces no file, an always-succeeding one produces the
serialized singleton array. -/
theorem generation_all_or_nothing_witness :
    run_generation 1 (fun _ => none) = none ∧
    (∃ leads,
      collectLeads (fun _ => some (generate_lead (lrandIdx 0) 0)) 1 =
        some leads ∧ leads.length = 1 ∧
      run_generation 1 (fun _ => some (generate_lead (lrandIdx 0) 0)) =
        some (jsonDump 0 (Json.arr (leads.map leadToJson)))) :=
  ⟨(generation_all_or_nothing 1 (fun _ => none)).1 ⟨0, by decide, rfl⟩,
   (generation_all_or_nothing 1
     (fun _ => some (generate_lead (lrandIdx 0) 0))).2.1 (fun k hk => rfl)⟩
